import Mathlib

/-!
Verification of `src/Math_Python_LIA01/rotation_visualisierung.py`.

The script builds a 2x2 rotation matrix for a fixed angle (45 degrees),
applies it to the vector (1, 0), prints a report and renders a figure.
Floating-point values are embedded as real numbers, numpy 2x2 arrays as
`Matrix (Fin 2) (Fin 2) ℝ`, numpy 2-vectors as `Fin 2 → ℝ`.
-/

namespace RotationVis

noncomputable section

/-- Degree-to-radian conversion `np.radians(winkel_grad)` (line 24),
`winkel_grad · π / 180`. -/
def radians (winkel_grad : ℝ) : ℝ := winkel_grad * Real.pi / 180

/-- The matrix builder `erstelle_rotationsmatrix` (lines 14–34): converts the angle to radians
and returns `np.array([[cosθ, -sinθ], [sinθ, cosθ]])`. -/
def erstelle_rotationsmatrix (winkel_grad : ℝ) : Matrix (Fin 2) (Fin 2) ℝ :=
  let winkel_rad := radians winkel_grad
  let cos_theta := Real.cos winkel_rad
  let sin_theta := Real.sin winkel_rad
  !![cos_theta, -sin_theta;
     sin_theta,  cos_theta]

/-- The rotation matrix as the spec words it: the 2x2 matrix
`[[cos th, -sin th], [sin th, cos th]]` where `th` is the angle converted
from degrees to radians. Stated separately from the source embedding so
the two can be compared. -/
def spec_rotationsmatrix (winkel_grad : ℝ) : Matrix (Fin 2) (Fin 2) ℝ :=
  let th := winkel_grad * Real.pi / 180
  !![Real.cos th, -Real.sin th;
     Real.sin th,  Real.cos th]

/-- The fixed configuration angle in degrees, `WINKEL = 45` (line 41). -/
def WINKEL : ℝ := 45

/-- The matrix of the run, `R = erstelle_rotationsmatrix(WINKEL)` (line 44). -/
def R : Matrix (Fin 2) (Fin 2) ℝ := erstelle_rotationsmatrix WINKEL

/-- The fixed input vector, `original_vektor = np.array([1, 0])` (line 53). -/
def original_vektor : Fin 2 → ℝ := ![1, 0]

/-- The vector transformer: numpy `M @ v` (line 56), the matrix–vector
product. -/
def drehe_vektor (M : Matrix (Fin 2) (Fin 2) ℝ) (v : Fin 2 → ℝ) : Fin 2 → ℝ :=
  M.mulVec v

/-- The rotated vector, `gedrehter_vektor = R @ original_vektor` (line 56). -/
def gedrehter_vektor : Fin 2 → ℝ := drehe_vektor R original_vektor

/-- Euclidean norm of a 2-vector. -/
def norm2 (v : Fin 2 → ℝ) : ℝ := Real.sqrt (v 0 ^ 2 + v 1 ^ 2)

end

/-- Sanity: `radians` applied to the fixed angle gives π/4. -/
theorem radians_WINKEL : radians WINKEL = Real.pi / 4 := by
  unfold radians WINKEL; ring

/-- Entry-level description of the source matrix builder. -/
theorem erstelle_rotationsmatrix_entries (w : ℝ) :
    erstelle_rotationsmatrix w =
      !![Real.cos (radians w), -Real.sin (radians w);
         Real.sin (radians w),  Real.cos (radians w)] := rfl

/-- C1: For every real angle given in degrees, the rotation matrix
builder returns the 2x2 matrix `[[cos th, -sin th], [sin th, cos th]]`
where `th` is the angle converted from degrees to radians — the standard
counter-clockwise rotation matrix, as the spec words it. -/
theorem C1_rotationsmatrix_stimmt_mit_spec (w : ℝ) :
    erstelle_rotationsmatrix w = spec_rotationsmatrix w := rfl

/-- C7: The matrix built for an angle of 0 degrees is exactly the
2x2 identity matrix. -/
theorem C7_nullwinkel_ist_identitaet :
    erstelle_rotationsmatrix 0 = 1 := by
  have h : radians 0 = 0 := by unfold radians; ring
  ext i j
  fin_cases i <;> fin_cases j <;>
    simp [erstelle_rotationsmatrix, h, Matrix.one_apply]

/-- C2: For every angle, the matrix returned by the builder is
orthonormal: its transpose times itself is the 2x2 identity matrix and
its determinant is 1 (exact in the real-number embedding, hence within
any floating-point tolerance). -/
theorem C2_orthonormal (w : ℝ) :
    (erstelle_rotationsmatrix w).transpose * erstelle_rotationsmatrix w = 1 ∧
      (erstelle_rotationsmatrix w).det = 1 := by
  have hsc := Real.sin_sq_add_cos_sq (radians w)
  constructor
  · have ht : (erstelle_rotationsmatrix w).transpose =
        !![Real.cos (radians w),  Real.sin (radians w);
           -Real.sin (radians w), Real.cos (radians w)] := by
      ext i j
      fin_cases i <;> fin_cases j <;>
        simp [erstelle_rotationsmatrix, Matrix.transpose_apply]
    rw [ht]
    ext i j
    fin_cases i <;> fin_cases j <;>
      simp [erstelle_rotationsmatrix, Matrix.mul_apply,
        Fin.sum_univ_two, Matrix.one_apply] <;> nlinarith [hsc]
  · rw [erstelle_rotationsmatrix_entries, Matrix.det_fin_two_of]
    nlinarith [hsc]

/-- C3: For every 2x2 matrix `M` and 2-vector `v`, the vector
transformer returns the matrix–vector product with components
`v'_x = M00·v_x + M01·v_y` and `v'_y = M10·v_x + M11·v_y`. -/
theorem C3_matrix_vektor_produkt (M : Matrix (Fin 2) (Fin 2) ℝ) (v : Fin 2 → ℝ) :
    drehe_vektor M v = ![M 0 0 * v 0 + M 0 1 * v 1, M 1 0 * v 0 + M 1 1 * v 1] := by
  funext i
  fin_cases i <;>
    simp [drehe_vektor, Matrix.mulVec, Matrix.dotProduct, Fin.sum_univ_two]

/-- C5: For all angles, the product of the matrices built for `a` and
for `b` equals the matrix built for `a + b` (composition law; exact over
the reals). -/
theorem C5_kompositionsgesetz (a b : ℝ) :
    erstelle_rotationsmatrix a * erstelle_rotationsmatrix b =
      erstelle_rotationsmatrix (a + b) := by
  have hr : radians (a + b) = radians a + radians b := by unfold radians; ring
  ext i j
  fin_cases i <;> fin_cases j <;>
    simp [erstelle_rotationsmatrix, Matrix.mul_apply, Fin.sum_univ_two, hr,
      Real.cos_add, Real.sin_add] <;> ring

/-- C6: The builder is 360-degree periodic: the matrix for 360 degrees
equals the matrix for 0 degrees, and for every angle the matrix for
`w + 360` equals the matrix for `w`. -/
theorem C6_periodizitaet :
    erstelle_rotationsmatrix 360 = erstelle_rotationsmatrix 0 ∧
      ∀ w : ℝ, erstelle_rotationsmatrix (w + 360) = erstelle_rotationsmatrix w := by
  have key : ∀ w : ℝ, erstelle_rotationsmatrix (w + 360) = erstelle_rotationsmatrix w := by
    intro w
    have hr : radians (w + 360) = radians w + 2 * Real.pi := by unfold radians; ring
    ext i j
    fin_cases i <;> fin_cases j <;>
      simp [erstelle_rotationsmatrix, hr, Real.cos_add_two_pi, Real.sin_add_two_pi]
  refine ⟨?_, key⟩
  have h := key 0
  rwa [zero_add] at h

/-- C8: Rotation preserves length: applying the matrix built for any
angle to any 2-vector yields a vector with the same Euclidean norm. -/
theorem C8_laengenerhaltung (w : ℝ) (v : Fin 2 → ℝ) :
    norm2 (drehe_vektor (erstelle_rotationsmatrix w) v) = norm2 v := by
  have hsc := Real.sin_sq_add_cos_sq (radians w)
  unfold norm2
  congr 1
  simp [drehe_vektor, erstelle_rotationsmatrix, Matrix.mulVec, Matrix.dotProduct,
    Fin.sum_univ_two]
  nlinarith [hsc]

/-- Lower bound on √2, used to pin down the rounded output. -/
theorem sqrt_two_gt : (1.4142 : ℝ) < Real.sqrt 2 := by
  nlinarith [Real.sq_sqrt (show (0:ℝ) ≤ 2 by norm_num), Real.sqrt_nonneg 2]

/-- Upper bound on √2, used to pin down the rounded output. -/
theorem sqrt_two_lt : Real.sqrt 2 < (1.4143 : ℝ) := by
  nlinarith [Real.sq_sqrt (show (0:ℝ) ≤ 2 by norm_num), Real.sqrt_nonneg 2]

/-- C4: With the program's fixed configuration (angle 45, original
vector (1, 0)), the rotated vector is exactly (√2/2, √2/2) ≈
(0.7071, 0.7071); both components round to 0.7071 at four decimal
places, so the console report shows the value 0.7071 in rounded form. -/
theorem C4_fuenfundvierzig_grad :
    gedrehter_vektor 0 = Real.sqrt 2 / 2 ∧
      gedrehter_vektor 1 = Real.sqrt 2 / 2 ∧
      ⌊gedrehter_vektor 0 * 10000 + 1 / 2⌋ = 7071 ∧
      ⌊gedrehter_vektor 1 * 10000 + 1 / 2⌋ = 7071 := by
  have hc : Real.cos (radians WINKEL) = Real.sqrt 2 / 2 := by
    rw [radians_WINKEL, Real.cos_pi_div_four]
  have hs : Real.sin (radians WINKEL) = Real.sqrt 2 / 2 := by
    rw [radians_WINKEL, Real.sin_pi_div_four]
  have h0 : gedrehter_vektor 0 = Real.sqrt 2 / 2 := by
    simp [gedrehter_vektor, drehe_vektor, R, erstelle_rotationsmatrix,
      original_vektor, Matrix.mulVec, Matrix.dotProduct, Fin.sum_univ_two, hc, hs]
  have h1 : gedrehter_vektor 1 = Real.sqrt 2 / 2 := by
    simp [gedrehter_vektor, drehe_vektor, R, erstelle_rotationsmatrix,
      original_vektor, Matrix.mulVec, Matrix.dotProduct, Fin.sum_univ_two, hc, hs]
  have hfloor : ⌊Real.sqrt 2 / 2 * 10000 + 1 / 2⌋ = (7071 : ℤ) := by
    rw [Int.floor_eq_iff]
    constructor
    · push_cast
      nlinarith [sqrt_two_gt]
    · push_cast
      nlinarith [sqrt_two_lt]
  exact ⟨h0, h1, by rw [h0]; exact hfloor, by rw [h1]; exact hfloor⟩

/-- A Python format spec as used in the script's f-strings: `fest b n`
is fixed-point `:{b}.{n}f` (with `b = 0` when no minimum width is
given), `standard` is plain `{x}` interpolation / `print` with the
default representation and no decimal formatting. -/
inductive FormatSpec
  | fest (breite : Nat) (nachkomma : Nat)
  | standard
  deriving DecidableEq

/-- Which program value an interpolated field of the report shows. -/
inductive Wertquelle
  | winkelwert
  | matrixEintrag
  | originalVektorKomponente
  | rotierterVektorKomponente
  deriving DecidableEq

/-- One numeric field of the report: the value shown, its origin, and
the format spec the source applies to it. -/
structure Ausgabefeld where
  quelle : Wertquelle
  wert : ℝ
  spec : FormatSpec

noncomputable section

/-- The numeric fields of the console report (lines 46–59): line 47
interpolates `{WINKEL}` plainly, line 49 is `print(R)` (default numpy
representation of the four entries), lines 58–59 interpolate the two
vectors plainly. No field carries a format spec. -/
def konsole_felder : List Ausgabefeld :=
  [⟨Wertquelle.winkelwert, WINKEL, FormatSpec.standard⟩,
   ⟨Wertquelle.matrixEintrag, R 0 0, FormatSpec.standard⟩,
   ⟨Wertquelle.matrixEintrag, R 0 1, FormatSpec.standard⟩,
   ⟨Wertquelle.matrixEintrag, R 1 0, FormatSpec.standard⟩,
   ⟨Wertquelle.matrixEintrag, R 1 1, FormatSpec.standard⟩,
   ⟨Wertquelle.originalVektorKomponente, original_vektor 0, FormatSpec.standard⟩,
   ⟨Wertquelle.originalVektorKomponente, original_vektor 1, FormatSpec.standard⟩,
   ⟨Wertquelle.rotierterVektorKomponente, gedrehter_vektor 0, FormatSpec.standard⟩,
   ⟨Wertquelle.rotierterVektorKomponente, gedrehter_vektor 1, FormatSpec.standard⟩]

/-- The numeric fields of `matrix_text` (lines 131–140), in order of
appearance: `{WINKEL}` plainly; the four entries as `:7.4f`; then the
computation block with `:.4f` on the rotated-vector components and the
matrix entries, but plain `{original_vektor[i]}` interpolation on the
original-vector components. -/
def matrix_text_felder : List Ausgabefeld :=
  [⟨Wertquelle.winkelwert, WINKEL, FormatSpec.standard⟩,
   ⟨Wertquelle.matrixEintrag, R 0 0, FormatSpec.fest 7 4⟩,
   ⟨Wertquelle.matrixEintrag, R 0 1, FormatSpec.fest 7 4⟩,
   ⟨Wertquelle.matrixEintrag, R 1 0, FormatSpec.fest 7 4⟩,
   ⟨Wertquelle.matrixEintrag, R 1 1, FormatSpec.fest 7 4⟩,
   ⟨Wertquelle.rotierterVektorKomponente, gedrehter_vektor 0, FormatSpec.fest 0 4⟩,
   ⟨Wertquelle.matrixEintrag, R 0 0, FormatSpec.fest 0 4⟩,
   ⟨Wertquelle.matrixEintrag, R 0 1, FormatSpec.fest 0 4⟩,
   ⟨Wertquelle.originalVektorKomponente, original_vektor 0, FormatSpec.standard⟩,
   ⟨Wertquelle.rotierterVektorKomponente, gedrehter_vektor 1, FormatSpec.fest 0 4⟩,
   ⟨Wertquelle.matrixEintrag, R 1 0, FormatSpec.fest 0 4⟩,
   ⟨Wertquelle.matrixEintrag, R 1 1, FormatSpec.fest 0 4⟩,
   ⟨Wertquelle.originalVektorKomponente, original_vektor 1, FormatSpec.standard⟩]

/-- All numeric fields the report renders. -/
def report_felder : List Ausgabefeld := konsole_felder ++ matrix_text_felder

end

/-- Whether a field's value is a matrix or vector value (as opposed to
the angle). -/
def istMatrixOderVektorwert : Wertquelle → Bool
  | Wertquelle.winkelwert => false
  | _ => true

/-- Whether a format spec is fixed-point with 4 decimal places. -/
def hat_vier_nachkommastellen : FormatSpec → Bool
  | FormatSpec.fest _ n => n == 4
  | FormatSpec.standard => false

/-- The property claimed of the report formatter: every matrix and
vector value it prints is rendered with fixed 4-decimal formatting. -/
noncomputable def alle_werte_vierstellig : Bool :=
  report_felder.all fun f =>
    !istMatrixOderVektorwert f.quelle || hat_vier_nachkommastellen f.spec

/-- C9 counterexample: The report does not use 4-decimal fixed
formatting for every matrix and vector value: the console report prints
the matrix and both vectors with default formatting, and even inside
`matrix_text` the original-vector components are interpolated plainly. -/
theorem C9_counterexample : alle_werte_vierstellig = false := rfl

/-- C9 amended: Inside the `matrix_text` block the matrix entries
and the rotated-vector components are rendered with 4-decimal fixed
formatting, but the original-vector components there are interpolated
without a format spec, and every value of the console report is printed
with default formatting. -/
theorem C9_amended_formatierung :
    (∀ f ∈ matrix_text_felder,
        (f.quelle = Wertquelle.matrixEintrag ∨
          f.quelle = Wertquelle.rotierterVektorKomponente) →
        hat_vier_nachkommastellen f.spec = true) ∧
      (∀ f ∈ matrix_text_felder,
        f.quelle = Wertquelle.originalVektorKomponente →
        f.spec = FormatSpec.standard) ∧
      (∀ f ∈ konsole_felder, f.spec = FormatSpec.standard) := by
  refine ⟨?_, ?_, ?_⟩ <;>
    · intro f hf
      fin_cases hf <;> simp [hat_vier_nachkommastellen]

/-- Witness for C9's amended statement at the first matrix entry of
`matrix_text`. -/
theorem C9_amended_witness :
    hat_vier_nachkommastellen
      (Ausgabefeld.mk Wertquelle.matrixEintrag (R 0 0) (FormatSpec.fest 7 4)).spec
      = true :=
  C9_amended_formatierung.1
    ⟨Wertquelle.matrixEintrag, R 0 0, FormatSpec.fest 7 4⟩
    (by simp [matrix_text_felder]) (Or.inl rfl)

/-- Console lines of the script, identified by the print statement that
produces them. -/
inductive Zeile
  | trennlinie      -- the repeated separator lines, e.g. line 46
  | titelzeile      -- line 47
  | matrixzeile     -- line 49, the matrix itself
  | leerzeile       -- empty print, lines 50 and 60
  | originalzeile   -- line 58
  | gedrehtzeile    -- line 59
  | erfolgszeile    -- line 159, the closing success message
  deriving DecidableEq

/-- Outcome of one run of the script: the console lines printed and the
process exit status. -/
structure Lauf where
  konsole : List Zeile
  exit_code : Nat

/-- Console output printed before the file write (lines 46–60). -/
def konsole_vor_savefig : List Zeile :=
  [Zeile.trennlinie, Zeile.titelzeile, Zeile.trennlinie, Zeile.matrixzeile,
   Zeile.leerzeile, Zeile.originalzeile, Zeile.gedrehtzeile, Zeile.leerzeile]

/-- Console output printed after the file write (lines 158–160). -/
def konsole_nach_savefig : List Zeile :=
  [Zeile.trennlinie, Zeile.erfolgszeile, Zeile.trennlinie]

/-- Shallow model of the top-level script around the file write. The
script is a straight line with a single `plt.savefig` call (line 155)
and no try/except anywhere, so an exception raised by the write aborts
the run uncaught: Python terminates with exit status 1 and the lines
after `savefig` are never printed. There is no second `savefig` call and
no alternative output path. On success the script prints the closing
message and the interpreter exits with status 0. -/
def fuehre_skript_aus (savefig_ergebnis : Except String Unit) : Lauf :=
  match savefig_ergebnis with
  | Except.error _ => { konsole := konsole_vor_savefig, exit_code := 1 }
  | Except.ok _ =>
      { konsole := konsole_vor_savefig ++ konsole_nach_savefig, exit_code := 0 }

/-- C10: A failing file write propagates uncaught as a fatal error:
the run terminates with a non-zero exit status, and no success line (nor
any retried or partial result) is produced — while a successful write
finishes with status 0. -/
theorem C10_savefig_fehler_propagiert (e : String) :
    (fuehre_skript_aus (Except.error e)).exit_code ≠ 0 ∧
      Zeile.erfolgszeile ∉ (fuehre_skript_aus (Except.error e)).konsole ∧
      (fuehre_skript_aus (Except.ok ())).exit_code = 0 := by
  refine ⟨?_, ?_, rfl⟩
  · simp [fuehre_skript_aus]
  · simp [fuehre_skript_aus, konsole_vor_savefig]

end RotationVis
